import Mathlib

/-!
Shallow embedding of the image-upload route of the admin application
(`src/app/api/upload/route.ts`).  The repository holds two variants of the
route handler in that file:

* the dual-backend variant (`POST`, with helpers `uploadToGCS` and
  `uploadToVercelBlob`): validates, builds the object key from the raw
  original filename, and dispatches to Google Cloud Storage when a bucket
  name and a constructed storage client are present, otherwise to Vercel
  Blob;

* the GCS-only variant (`POSTv2`): same validation, then requires
  `GCS_BUCKET_NAME`, sanitizes the filename, builds the key and uploads to
  GCS with the same retry loop.

Machine-level effects are made explicit: the request timestamp and the
backend write outcomes are parameters, and each run returns, next to the
HTTP response, the trace of write attempts and sleeps performed.
-/

namespace Upload

/-- Code points matched by the JavaScript regex class `\s` (whitespace):
tab..carriage-return (9-13), space (32), NBSP (160), Ogham space (0x1680),
the en-quad..hair-space block (0x2000-0x200A), line/paragraph separator
(0x2028, 0x2029), narrow NBSP (0x202F), medium mathematical space (0x205F),
ideographic space (0x3000) and BOM (0xFEFF). -/
def isJsWhitespace (c : Char) : Bool :=
  (9 ≤ c.toNat && c.toNat ≤ 13) || c.toNat == 32 || c.toNat == 160 ||
  c.toNat == 0x1680 || (0x2000 ≤ c.toNat && c.toNat ≤ 0x200A) ||
  c.toNat == 0x2028 || c.toNat == 0x2029 || c.toNat == 0x202F ||
  c.toNat == 0x205F || c.toNat == 0x3000 || c.toNat == 0xFEFF

/-- Characters kept by the sanitizer's second step, the regex class
`[a-zA-Z0-9.-]`: codes 65-90 are `A`-`Z`, 97-122 are `a`-`z`, 48-57 are
`0`-`9`, 46 is `.` and 45 is `-`. -/
def isAllowedChar (c : Char) : Bool :=
  (65 ≤ c.toNat && c.toNat ≤ 90) || (97 ≤ c.toNat && c.toNat ≤ 122) ||
  (48 ≤ c.toNat && c.toNat ≤ 57) || c.toNat == 46 || c.toNat == 45

/-- The step `.replace(/\s+/g, '-')`: each maximal run of whitespace becomes a single
hyphen.  The flag records whether the previous character was part of a
whitespace run whose hyphen has already been emitted. -/
def replWsAux : Bool → List Char → List Char
  | _, [] => []
  | inRun, c :: cs =>
    if isJsWhitespace c then
      if inRun then replWsAux true cs else '-' :: replWsAux true cs
    else c :: replWsAux false cs

/-- First sanitization step on a character list. -/
def replaceWsRuns (l : List Char) : List Char := replWsAux false l

/-- The three sanitization steps on a character list: whitespace runs to
hyphens, strip characters outside `[a-zA-Z0-9.-]`, lowercase. -/
def sanitizeChars (l : List Char) : List Char :=
  ((replaceWsRuns l).filter isAllowedChar).map Char.toLower

/-- The expression `file.name.replace(/\s+/g,'-').replace(/[^a-zA-Z0-9.-]/g,'').toLowerCase()`
from the GCS-only route variant.  `Char.toLower` agrees with JavaScript
`toLowerCase` on the ASCII-only output of the strip step. -/
def sanitizeFileName (s : String) : String := ⟨sanitizeChars s.data⟩

/-- The uploaded file as seen by the handler: original name, declared MIME
type, byte size. -/
structure FileData where
  name : String
  type : String
  size : Nat
deriving Repr, DecidableEq

/-- The multipart form fields: `formData.get` yields `null` for an absent
field, modelled by `none`. -/
structure UploadRequest where
  file : Option FileData
  directory : Option String
deriving Repr, DecidableEq

/-- Process configuration: the two environment variables (absent = `none`)
and whether `new Storage()` succeeded at module load. -/
structure Env where
  GCS_BUCKET_NAME : Option String
  BLOB_READ_WRITE_TOKEN : Option String
  storageOk : Bool
deriving Repr, DecidableEq

/-- Observable side effects of a run: a backend write attempt (numbered from
1) or a `setTimeout` pause in milliseconds. -/
inductive Ev where
  | attempt (k : Nat)
  | sleepMs (ms : Nat)
deriving Repr, DecidableEq

/-- The JSON bodies produced by the route, flattened into one record; fields
absent from a given response are `none`. -/
structure ApiResponse where
  status : Nat
  error : Option String := none
  details : Option String := none
  url : Option String := none
  fileName : Option String := none
  storage : Option String := none
deriving Repr, DecidableEq

/-- JavaScript truthiness of a `string | null` value: `null` and `""` are
falsy. -/
def jsTruthy : Option String → Bool
  | none => false
  | some s => s ≠ ""

/-- Evaluation of `x || d` on a `string | null` value. -/
def jsStringOrDefault (v : Option String) (d : String) : String :=
  match v with
  | none => d
  | some s => if s = "" then d else s

/-- The list `const allowedTypes = [...]` of the handler. -/
def allowedTypes : List String :=
  ["image/jpeg", "image/jpg", "image/png", "image/webp", "image/avif"]

/-- The constant `const maxSize = 15 * 1024 * 1024`. -/
def maxSize : Nat := 15 * 1024 * 1024

/-- The list `const allowedDirectories = [...]` of the handler. -/
def allowedDirectories : List String :=
  ["courses", "batches", "general", "products", "products/banner",
   "category-icons", "logos"]

/-- The shared retry loop (`let retries = 3; while (retries > 0) ...`):
`put k` is the outcome of the k-th write attempt; on failure the loop
decrements, rethrows when no retries remain, otherwise sleeps 1000 ms and
retries.  Returns the event trace and either the first success value or the
propagated error; `emptyMsg` is the error thrown when the loop body never
ran (budget 0, unreachable from the call with budget 3). -/
def attemptLoop (put : Nat → Except String α) (emptyMsg : String) :
    Nat → Nat → List Ev × Except String α
  | 0, _ => ([], Except.error emptyMsg)
  | r + 1, k =>
    match put k with
    | Except.ok a => ([Ev.attempt k], Except.ok a)
    | Except.error e =>
      if r = 0 then ([Ev.attempt k], Except.error e)
      else
        let rest := attemptLoop put emptyMsg r (k + 1)
        (Ev.attempt k :: Ev.sleepMs 1000 :: rest.1, rest.2)

/-- The helper `uploadToGCS`: retry loop around `blob.save`, then the 200 response with
the public URL, or the propagated error.  `put k` is the outcome of the k-th
`blob.save` call. -/
def uploadToGCS (bucketName fileName : String)
    (put : Nat → Except String Unit) : List Ev × Except String ApiResponse :=
  match attemptLoop put "Upload failed - no URL returned" 3 1 with
  | (tr, Except.ok _) =>
    (tr, Except.ok
      { status := 200
        url := some ("https://storage.googleapis.com/" ++ bucketName ++ "/" ++ fileName)
        fileName := some fileName
        storage := some "gcs" })
  | (tr, Except.error e) => (tr, Except.error e)

/-- The helper `uploadToVercelBlob`: a 500 configuration response when
`BLOB_READ_WRITE_TOKEN` is falsy, otherwise the retry loop around `put`;
`put k` yields the store-issued URL of the k-th attempt on success. -/
def uploadToVercelBlob (token : Option String) (fileName : String)
    (put : Nat → Except String String) : List Ev × Except String ApiResponse :=
  if jsTruthy token then
    match attemptLoop put "Upload failed - no blob returned" 3 1 with
    | (tr, Except.ok u) =>
      (tr, Except.ok
        { status := 200
          url := some u
          fileName := some fileName
          storage := some "vercel-blob" })
    | (tr, Except.error e) => (tr, Except.error e)
  else
    ([], Except.ok
      { status := 500
        error := some "Server configuration error: Neither GCS nor Vercel Blob is configured properly" })

/-- The dual-backend `POST` handler.  `now` is `Date.now()`; `gput`/`bput`
are the per-attempt outcomes of the GCS and Vercel Blob writes.  Returns
the HTTP response and the trace of attempts and sleeps. -/
def POST (env : Env) (now : Nat) (gput : Nat → Except String Unit)
    (bput : Nat → Except String String) (req : UploadRequest) :
    ApiResponse × List Ev :=
  let directory := jsStringOrDefault req.directory "general"
  match req.file with
  | none => ({ status := 400, error := some "No file provided" }, [])
  | some file =>
    if file.type ∉ allowedTypes then
      ({ status := 400
         error := some "Invalid file type. Only JPEG, PNG, WebP, and AVIF images are allowed." }, [])
    else if file.size > maxSize then
      ({ status := 400, error := some "File too large. Maximum size is 15MB." }, [])
    else if directory ∉ allowedDirectories then
      ({ status := 400
         error := some "Invalid directory. Allowed directories: courses, batches, general, products, products/banner, category-icons, logos" }, [])
    else
      let fileName := directory ++ "/" ++ toString now ++ "-" ++ file.name
      let useGCS := jsTruthy env.GCS_BUCKET_NAME && env.storageOk
      let run :=
        if useGCS then
          uploadToGCS (env.GCS_BUCKET_NAME.getD "") fileName gput
        else
          uploadToVercelBlob env.BLOB_READ_WRITE_TOKEN fileName bput
      match run with
      | (tr, Except.ok resp) => (resp, tr)
      | (tr, Except.error e) =>
        ({ status := 500
           error := some "Failed to upload file"
           details := some e }, tr)

/-- The GCS-only `POST` variant: same validation, then a 500 when
`GCS_BUCKET_NAME` is falsy, then filename sanitization, key construction and
the inline GCS retry loop. -/
def POSTv2 (bucketName : Option String) (now : Nat)
    (gput : Nat → Except String Unit) (req : UploadRequest) :
    ApiResponse × List Ev :=
  let directory := jsStringOrDefault req.directory "general"
  match req.file with
  | none => ({ status := 400, error := some "No file provided" }, [])
  | some file =>
    if file.type ∉ allowedTypes then
      ({ status := 400
         error := some "Invalid file type. Only JPEG, PNG, WebP, and AVIF images are allowed." }, [])
    else if file.size > maxSize then
      ({ status := 400, error := some "File too large. Maximum size is 15MB." }, [])
    else if directory ∉ allowedDirectories then
      ({ status := 400
         error := some "Invalid directory. Allowed directories: courses, batches, general, products, products/banner, category-icons, logos" }, [])
    else if jsTruthy bucketName = false then
      ({ status := 500
         error := some "Server configuration error: GCS_BUCKET_NAME not set" }, [])
    else
      let sanitizedFileName := sanitizeFileName file.name
      let fileName := directory ++ "/" ++ toString now ++ "-" ++ sanitizedFileName
      match attemptLoop gput "Upload failed - no URL returned" 3 1 with
      | (tr, Except.ok _) =>
        ({ status := 200
           url := some ("https://storage.googleapis.com/" ++ bucketName.getD "" ++ "/" ++ fileName)
           fileName := some fileName }, tr)
      | (tr, Except.error e) =>
        ({ status := 500
           error := some "Failed to upload file"
           details := some e }, tr)

end Upload

/-! ### Helper lemmas -/

namespace Upload

/-- Reading back the code of a `Char` built from a code below the surrogate
range. -/
theorem toNat_ofNat_valid (n : Nat) (h : n < 0xd800) : (Char.ofNat n).toNat = n := by
  rw [Char.ofNat, dif_pos]
  · rfl
  · exact Or.inl (by simpa using h)

/-- Characters in the image of the sanitizer: lowercase letters, digits,
dot, hyphen. -/
def isLowerAllowed (c : Char) : Bool :=
  (97 ≤ c.toNat && c.toNat ≤ 122) || (48 ≤ c.toNat && c.toNat ≤ 57) ||
  c.toNat == 46 || c.toNat == 45

/-- Unfolding of core's `Char.toLower`, which is the ASCII fragment of
JavaScript `toLowerCase`. -/
theorem toLower_def (c : Char) :
    Char.toLower c =
      if c.toNat ≥ 65 ∧ c.toNat ≤ 90 then Char.ofNat (c.toNat + 32) else c := rfl

theorem lowerAllowed_of_allowed (c : Char) (h : isAllowedChar c = true) :
    isLowerAllowed (Char.toLower c) = true := by
  simp [isAllowedChar] at h
  rw [toLower_def]
  by_cases hc : c.toNat ≥ 65 ∧ c.toNat ≤ 90
  · rw [if_pos hc]
    simp [isLowerAllowed, toNat_ofNat_valid (c.toNat + 32) (by omega)]
    omega
  · rw [if_neg hc]
    simp [isLowerAllowed]
    omega

theorem toLower_fixed_of_lowerAllowed (c : Char) (h : isLowerAllowed c = true) :
    Char.toLower c = c := by
  simp [isLowerAllowed] at h
  rw [toLower_def, if_neg (by omega)]

theorem allowed_of_lowerAllowed (c : Char) (h : isLowerAllowed c = true) :
    isAllowedChar c = true := by
  simp [isLowerAllowed] at h
  simp [isAllowedChar]
  omega

theorem not_ws_of_lowerAllowed (c : Char) (h : isLowerAllowed c = true) :
    isJsWhitespace c = false := by
  simp [isLowerAllowed] at h
  simp [isJsWhitespace]
  omega

/-- On whitespace-free input the first sanitization step is the identity,
whatever the run flag. -/
theorem replWsAux_eq_self (l : List Char) (h : ∀ c ∈ l, isJsWhitespace c = false) :
    ∀ b, replWsAux b l = l := by
  induction l with
  | nil => intro b; rfl
  | cons c cs ih =>
    intro b
    have hc := h c (List.mem_cons_self c cs)
    simp [replWsAux, hc]
    exact ih (fun x hx => h x (List.mem_cons_of_mem c hx)) false

/-- Every character produced by the sanitizer is a lowercase letter, digit,
dot or hyphen. -/
theorem mem_sanitizeChars_lowerAllowed (l : List Char) (c : Char)
    (h : c ∈ sanitizeChars l) : isLowerAllowed c = true := by
  simp [sanitizeChars] at h
  obtain ⟨a, ⟨_, ha⟩, rfl⟩ := h
  exact lowerAllowed_of_allowed a ha

theorem sanitizeChars_idem (l : List Char) :
    sanitizeChars (sanitizeChars l) = sanitizeChars l := by
  have hmem := mem_sanitizeChars_lowerAllowed l
  rw [sanitizeChars, replaceWsRuns,
    replWsAux_eq_self _ (fun c hc => not_ws_of_lowerAllowed c (hmem c hc)) false]
  rw [List.filter_eq_self.mpr (fun c hc => allowed_of_lowerAllowed c (hmem c hc))]
  exact List.map_congr_left (fun c hc => toLower_fixed_of_lowerAllowed c (hmem c hc))
    |>.trans (List.map_id _)

/-- Retry loop: immediate success performs a single attempt. -/
theorem attemptLoop_ok1 (put : Nat → Except String α) (msg : String) (a : α)
    (h1 : put 1 = Except.ok a) :
    attemptLoop put msg 3 1 = ([Ev.attempt 1], Except.ok a) := by
  simp [attemptLoop, h1]

/-- Retry loop: one failure then success performs exactly two attempts with
one 1000 ms pause. -/
theorem attemptLoop_err1_ok2 (put : Nat → Except String α) (msg : String)
    (e1 : String) (a : α) (h1 : put 1 = Except.error e1) (h2 : put 2 = Except.ok a) :
    attemptLoop put msg 3 1 =
      ([Ev.attempt 1, Ev.sleepMs 1000, Ev.attempt 2], Except.ok a) := by
  simp [attemptLoop, h1, h2]

/-- Retry loop: two failures then success performs exactly three attempts
with a 1000 ms pause between consecutive attempts. -/
theorem attemptLoop_err12_ok3 (put : Nat → Except String α) (msg : String)
    (e1 e2 : String) (a : α) (h1 : put 1 = Except.error e1)
    (h2 : put 2 = Except.error e2) (h3 : put 3 = Except.ok a) :
    attemptLoop put msg 3 1 =
      ([Ev.attempt 1, Ev.sleepMs 1000, Ev.attempt 2, Ev.sleepMs 1000, Ev.attempt 3],
       Except.ok a) := by
  simp [attemptLoop, h1, h2, h3]

/-- Retry loop: three failures stop after the third attempt and propagate
the last error. -/
theorem attemptLoop_err123 (put : Nat → Except String α) (msg : String)
    (e1 e2 e3 : String) (h1 : put 1 = Except.error e1)
    (h2 : put 2 = Except.error e2) (h3 : put 3 = Except.error e3) :
    attemptLoop put msg 3 1 =
      ([Ev.attempt 1, Ev.sleepMs 1000, Ev.attempt 2, Ev.sleepMs 1000, Ev.attempt 3],
       Except.error e3) := by
  simp [attemptLoop, h1, h2, h3]

end Upload

namespace Upload

theorem POST_no_file (env : Env) (now : Nat) (gput : Nat → Except String Unit)
    (bput : Nat → Except String String) (req : UploadRequest)
    (hfile : req.file = none) :
    POST env now gput bput req =
      ({ status := 400, error := some "No file provided" }, []) := by
  simp [POST, hfile]

theorem POST_bad_type (env : Env) (now : Nat) (gput : Nat → Except String Unit)
    (bput : Nat → Except String String) (req : UploadRequest) (f : FileData)
    (hfile : req.file = some f) (hty : f.type ∉ allowedTypes) :
    POST env now gput bput req =
      ({ status := 400
         error := some "Invalid file type. Only JPEG, PNG, WebP, and AVIF images are allowed." },
       []) := by
  simp [POST, hfile, hty]

theorem POST_too_large (env : Env) (now : Nat) (gput : Nat → Except String Unit)
    (bput : Nat → Except String String) (req : UploadRequest) (f : FileData)
    (hfile : req.file = some f) (hty : f.type ∈ allowedTypes)
    (hsz : f.size > maxSize) :
    POST env now gput bput req =
      ({ status := 400, error := some "File too large. Maximum size is 15MB." },
       []) := by
  simp [POST, hfile, hty, hsz]

theorem POST_bad_directory (env : Env) (now : Nat) (gput : Nat → Except String Unit)
    (bput : Nat → Except String String) (req : UploadRequest) (f : FileData)
    (hfile : req.file = some f) (hty : f.type ∈ allowedTypes)
    (hsz : f.size ≤ maxSize)
    (hdir : jsStringOrDefault req.directory "general" ∉ allowedDirectories) :
    POST env now gput bput req =
      ({ status := 400
         error := some "Invalid directory. Allowed directories: courses, batches, general, products, products/banner, category-icons, logos" },
       []) := by
  simp [POST, hfile, hty, hdir]
  omega

end Upload

namespace Upload

theorem POST_valid_gcs_ok (env : Env) (now : Nat) (gput : Nat → Except String Unit)
    (bput : Nat → Except String String) (req : UploadRequest) (f : FileData)
    (b : String) (tr : List Ev)
    (hfile : req.file = some f) (hty : f.type ∈ allowedTypes)
    (hsz : f.size ≤ maxSize)
    (hdir : jsStringOrDefault req.directory "general" ∈ allowedDirectories)
    (hb : env.GCS_BUCKET_NAME = some b) (hbne : b ≠ "")
    (hsok : env.storageOk = true)
    (hloop : attemptLoop gput "Upload failed - no URL returned" 3 1 = (tr, Except.ok ())) :
    POST env now gput bput req =
      ({ status := 200
         url := some ("https://storage.googleapis.com/" ++ b ++ "/" ++
           (jsStringOrDefault req.directory "general" ++ "/" ++ toString now ++ "-" ++ f.name))
         fileName := some (jsStringOrDefault req.directory "general" ++ "/" ++ toString now ++ "-" ++ f.name)
         storage := some "gcs" }, tr) := by
  rw [POST]
  simp only [hfile]
  rw [if_neg (by simp [hty]), if_neg (by omega), if_neg (by simp [hdir])]
  simp only [hb, hsok, jsTruthy, Option.getD]
  rw [if_pos (by simp [hbne])]
  rw [uploadToGCS, hloop]

theorem POST_valid_gcs_err (env : Env) (now : Nat) (gput : Nat → Except String Unit)
    (bput : Nat → Except String String) (req : UploadRequest) (f : FileData)
    (b e : String) (tr : List Ev)
    (hfile : req.file = some f) (hty : f.type ∈ allowedTypes)
    (hsz : f.size ≤ maxSize)
    (hdir : jsStringOrDefault req.directory "general" ∈ allowedDirectories)
    (hb : env.GCS_BUCKET_NAME = some b) (hbne : b ≠ "")
    (hsok : env.storageOk = true)
    (hloop : attemptLoop gput "Upload failed - no URL returned" 3 1 = (tr, Except.error e)) :
    POST env now gput bput req =
      ({ status := 500, error := some "Failed to upload file", details := some e },
       tr) := by
  rw [POST]
  simp only [hfile]
  rw [if_neg (by simp [hty]), if_neg (by omega), if_neg (by simp [hdir])]
  simp only [hb, hsok, jsTruthy, Option.getD]
  rw [if_pos (by simp [hbne])]
  rw [uploadToGCS, hloop]

theorem POST_valid_blob_ok (env : Env) (now : Nat) (gput : Nat → Except String Unit)
    (bput : Nat → Except String String) (req : UploadRequest) (f : FileData)
    (u : String) (tr : List Ev)
    (hfile : req.file = some f) (hty : f.type ∈ allowedTypes)
    (hsz : f.size ≤ maxSize)
    (hdir : jsStringOrDefault req.directory "general" ∈ allowedDirectories)
    (hsel : (jsTruthy env.GCS_BUCKET_NAME && env.storageOk) = false)
    (htok : jsTruthy env.BLOB_READ_WRITE_TOKEN = true)
    (hloop : attemptLoop bput "Upload failed - no blob returned" 3 1 = (tr, Except.ok u)) :
    POST env now gput bput req =
      ({ status := 200
         url := some u
         fileName := some (jsStringOrDefault req.directory "general" ++ "/" ++ toString now ++ "-" ++ f.name)
         storage := some "vercel-blob" }, tr) := by
  rw [POST]
  simp only [hfile]
  rw [if_neg (by simp [hty]), if_neg (by omega), if_neg (by simp [hdir])]
  rw [if_neg (by simp [hsel])]
  rw [uploadToVercelBlob, if_pos htok, hloop]

theorem POST_valid_blob_err (env : Env) (now : Nat) (gput : Nat → Except String Unit)
    (bput : Nat → Except String String) (req : UploadRequest) (f : FileData)
    (e : String) (tr : List Ev)
    (hfile : req.file = some f) (hty : f.type ∈ allowedTypes)
    (hsz : f.size ≤ maxSize)
    (hdir : jsStringOrDefault req.directory "general" ∈ allowedDirectories)
    (hsel : (jsTruthy env.GCS_BUCKET_NAME && env.storageOk) = false)
    (htok : jsTruthy env.BLOB_READ_WRITE_TOKEN = true)
    (hloop : attemptLoop bput "Upload failed - no blob returned" 3 1 = (tr, Except.error e)) :
    POST env now gput bput req =
      ({ status := 500, error := some "Failed to upload file", details := some e },
       tr) := by
  rw [POST]
  simp only [hfile]
  rw [if_neg (by simp [hty]), if_neg (by omega), if_neg (by simp [hdir])]
  rw [if_neg (by simp [hsel])]
  rw [uploadToVercelBlob, if_pos htok, hloop]

theorem POST_blob_no_token (env : Env) (now : Nat) (gput : Nat → Except String Unit)
    (bput : Nat → Except String String) (req : UploadRequest) (f : FileData)
    (hfile : req.file = some f) (hty : f.type ∈ allowedTypes)
    (hsz : f.size ≤ maxSize)
    (hdir : jsStringOrDefault req.directory "general" ∈ allowedDirectories)
    (hsel : (jsTruthy env.GCS_BUCKET_NAME && env.storageOk) = false)
    (htok : jsTruthy env.BLOB_READ_WRITE_TOKEN = false) :
    POST env now gput bput req =
      ({ status := 500
         error := some "Server configuration error: Neither GCS nor Vercel Blob is configured properly" },
       []) := by
  rw [POST]
  simp only [hfile]
  rw [if_neg (by simp [hty]), if_neg (by omega), if_neg (by simp [hdir])]
  rw [if_neg (by simp [hsel])]
  rw [uploadToVercelBlob, if_neg (by simp [htok])]

end Upload

namespace Upload

theorem POST_fileName_of_200 (env : Env) (now : Nat)
    (gput : Nat → Except String Unit) (bput : Nat → Except String String)
    (req : UploadRequest) (f : FileData)
    (hfile : req.file = some f)
    (h200 : (POST env now gput bput req).1.status = 200) :
    (POST env now gput bput req).1.fileName =
      some (jsStringOrDefault req.directory "general" ++ "/" ++ toString now ++ "-" ++ f.name) := by
  by_cases hty : f.type ∈ allowedTypes
  case neg =>
    rw [POST_bad_type env now gput bput req f hfile hty] at h200
    simp at h200
  by_cases hsz : f.size > maxSize
  case pos =>
    rw [POST_too_large env now gput bput req f hfile hty hsz] at h200
    simp at h200
  rw [Nat.not_lt] at hsz
  by_cases hdir : jsStringOrDefault req.directory "general" ∈ allowedDirectories
  case neg =>
    rw [POST_bad_directory env now gput bput req f hfile hty hsz hdir] at h200
    simp at h200
  by_cases hsel : (jsTruthy env.GCS_BUCKET_NAME && env.storageOk) = true
  · obtain ⟨b, hb⟩ : ∃ b, env.GCS_BUCKET_NAME = some b := by
      cases hgb : env.GCS_BUCKET_NAME with
      | none => rw [hgb] at hsel; simp [jsTruthy] at hsel
      | some b => exact ⟨b, rfl⟩
    rw [Bool.and_eq_true] at hsel
    have hbne : b ≠ "" := by
      have := hsel.1; rw [hb] at this; simpa [jsTruthy] using this
    have hsok : env.storageOk = true := hsel.2
    rcases hloop : attemptLoop gput "Upload failed - no URL returned" 3 1 with ⟨tr, res⟩
    cases res with
    | ok a =>
      rw [POST_valid_gcs_ok env now gput bput req f b tr hfile hty hsz hdir hb hbne hsok hloop]
    | error e =>
      rw [POST_valid_gcs_err env now gput bput req f b e tr hfile hty hsz hdir hb hbne hsok hloop] at h200
      simp at h200
  · rw [Bool.not_eq_true] at hsel
    by_cases htok : jsTruthy env.BLOB_READ_WRITE_TOKEN = true
    · rcases hloop : attemptLoop bput "Upload failed - no blob returned" 3 1 with ⟨tr, res⟩
      cases res with
      | ok u =>
        rw [POST_valid_blob_ok env now gput bput req f u tr hfile hty hsz hdir hsel htok hloop]
      | error e =>
        rw [POST_valid_blob_err env now gput bput req f e tr hfile hty hsz hdir hsel htok hloop] at h200
        simp at h200
    · rw [Bool.not_eq_true] at htok
      rw [POST_blob_no_token env now gput bput req f hfile hty hsz hdir hsel htok] at h200
      simp at h200

end Upload

namespace Upload

theorem POST_error_shape (env : Env) (now : Nat)
    (gput : Nat → Except String Unit) (bput : Nat → Except String String)
    (req : UploadRequest) (f : FileData)
    (hfile : req.file = some f) (hty : f.type ∈ allowedTypes)
    (hsz : f.size ≤ maxSize)
    (hdir : jsStringOrDefault req.directory "general" ∈ allowedDirectories) :
    (POST env now gput bput req).1.error = none ∨
    (POST env now gput bput req).1.error = some "Failed to upload file" ∨
    (POST env now gput bput req).1.error =
      some "Server configuration error: Neither GCS nor Vercel Blob is configured properly" := by
  by_cases hsel : (jsTruthy env.GCS_BUCKET_NAME && env.storageOk) = true
  · obtain ⟨b, hb⟩ : ∃ b, env.GCS_BUCKET_NAME = some b := by
      cases hgb : env.GCS_BUCKET_NAME with
      | none => rw [hgb] at hsel; simp [jsTruthy] at hsel
      | some b => exact ⟨b, rfl⟩
    rw [Bool.and_eq_true] at hsel
    have hbne : b ≠ "" := by
      have := hsel.1; rw [hb] at this; simpa [jsTruthy] using this
    have hsok : env.storageOk = true := hsel.2
    rcases hloop : attemptLoop gput "Upload failed - no URL returned" 3 1 with ⟨tr, res⟩
    cases res with
    | ok a =>
      rw [POST_valid_gcs_ok env now gput bput req f b tr hfile hty hsz hdir hb hbne hsok hloop]
      exact Or.inl rfl
    | error e =>
      rw [POST_valid_gcs_err env now gput bput req f b e tr hfile hty hsz hdir hb hbne hsok hloop]
      exact Or.inr (Or.inl rfl)
  · rw [Bool.not_eq_true] at hsel
    by_cases htok : jsTruthy env.BLOB_READ_WRITE_TOKEN = true
    · rcases hloop : attemptLoop bput "Upload failed - no blob returned" 3 1 with ⟨tr, res⟩
      cases res with
      | ok u =>
        rw [POST_valid_blob_ok env now gput bput req f u tr hfile hty hsz hdir hsel htok hloop]
        exact Or.inl rfl
      | error e =>
        rw [POST_valid_blob_err env now gput bput req f e tr hfile hty hsz hdir hsel htok hloop]
        exact Or.inr (Or.inl rfl)
    · rw [Bool.not_eq_true] at htok
      rw [POST_blob_no_token env now gput bput req f hfile hty hsz hdir hsel htok]
      exact Or.inr (Or.inr rfl)

theorem POSTv2_bad_type (bn : Option String) (now : Nat)
    (gput : Nat → Except String Unit) (req : UploadRequest) (f : FileData)
    (hfile : req.file = some f) (hty : f.type ∉ allowedTypes) :
    POSTv2 bn now gput req =
      ({ status := 400
         error := some "Invalid file type. Only JPEG, PNG, WebP, and AVIF images are allowed." },
       []) := by
  simp [POSTv2, hfile, hty]

theorem POSTv2_too_large (bn : Option String) (now : Nat)
    (gput : Nat → Except String Unit) (req : UploadRequest) (f : FileData)
    (hfile : req.file = some f) (hty : f.type ∈ allowedTypes)
    (hsz : f.size > maxSize) :
    POSTv2 bn now gput req =
      ({ status := 400, error := some "File too large. Maximum size is 15MB." },
       []) := by
  simp [POSTv2, hfile, hty, hsz]

theorem POSTv2_bad_directory (bn : Option String) (now : Nat)
    (gput : Nat → Except String Unit) (req : UploadRequest) (f : FileData)
    (hfile : req.file = some f) (hty : f.type ∈ allowedTypes)
    (hsz : f.size ≤ maxSize)
    (hdir : jsStringOrDefault req.directory "general" ∉ allowedDirectories) :
    POSTv2 bn now gput req =
      ({ status := 400
         error := some "Invalid directory. Allowed directories: courses, batches, general, products, products/banner, category-icons, logos" },
       []) := by
  simp [POSTv2, hfile, hty, hdir]
  omega

theorem POSTv2_no_bucket (bn : Option String) (now : Nat)
    (gput : Nat → Except String Unit) (req : UploadRequest) (f : FileData)
    (hfile : req.file = some f) (hty : f.type ∈ allowedTypes)
    (hsz : f.size ≤ maxSize)
    (hdir : jsStringOrDefault req.directory "general" ∈ allowedDirectories)
    (hbn : jsTruthy bn = false) :
    POSTv2 bn now gput req =
      ({ status := 500
         error := some "Server configuration error: GCS_BUCKET_NAME not set" },
       []) := by
  rw [POSTv2]
  simp only [hfile]
  rw [if_neg (by simp [hty]), if_neg (by omega), if_neg (by simp [hdir]),
    if_pos (by simp [hbn])]

theorem POSTv2_valid_ok (bn : Option String) (now : Nat)
    (gput : Nat → Except String Unit) (req : UploadRequest) (f : FileData)
    (tr : List Ev)
    (hfile : req.file = some f) (hty : f.type ∈ allowedTypes)
    (hsz : f.size ≤ maxSize)
    (hdir : jsStringOrDefault req.directory "general" ∈ allowedDirectories)
    (hbn : jsTruthy bn = true)
    (hloop : attemptLoop gput "Upload failed - no URL returned" 3 1 = (tr, Except.ok ())) :
    POSTv2 bn now gput req =
      ({ status := 200
         url := some ("https://storage.googleapis.com/" ++ bn.getD "" ++ "/" ++
           (jsStringOrDefault req.directory "general" ++ "/" ++ toString now ++ "-" ++
             sanitizeFileName f.name))
         fileName := some (jsStringOrDefault req.directory "general" ++ "/" ++ toString now ++ "-" ++
           sanitizeFileName f.name) }, tr) := by
  rw [POSTv2]
  simp only [hfile]
  rw [if_neg (by simp [hty]), if_neg (by omega), if_neg (by simp [hdir]),
    if_neg (by simp [hbn]), hloop]

theorem POSTv2_valid_err (bn : Option String) (now : Nat)
    (gput : Nat → Except String Unit) (req : UploadRequest) (f : FileData)
    (e : String) (tr : List Ev)
    (hfile : req.file = some f) (hty : f.type ∈ allowedTypes)
    (hsz : f.size ≤ maxSize)
    (hdir : jsStringOrDefault req.directory "general" ∈ allowedDirectories)
    (hbn : jsTruthy bn = true)
    (hloop : attemptLoop gput "Upload failed - no URL returned" 3 1 = (tr, Except.error e)) :
    POSTv2 bn now gput req =
      ({ status := 500, error := some "Failed to upload file", details := some e },
       tr) := by
  rw [POSTv2]
  simp only [hfile]
  rw [if_neg (by simp [hty]), if_neg (by omega), if_neg (by simp [hdir]),
    if_neg (by simp [hbn]), hloop]

theorem POSTv2_fileName_of_200 (bn : Option String) (now : Nat)
    (gput : Nat → Except String Unit) (req : UploadRequest) (f : FileData)
    (hfile : req.file = some f)
    (h200 : (POSTv2 bn now gput req).1.status = 200) :
    (POSTv2 bn now gput req).1.fileName =
      some (jsStringOrDefault req.directory "general" ++ "/" ++ toString now ++ "-" ++
        sanitizeFileName f.name) := by
  by_cases hty : f.type ∈ allowedTypes
  case neg =>
    rw [POSTv2_bad_type bn now gput req f hfile hty] at h200
    simp at h200
  by_cases hsz : f.size > maxSize
  case pos =>
    rw [POSTv2_too_large bn now gput req f hfile hty hsz] at h200
    simp at h200
  rw [Nat.not_lt] at hsz
  by_cases hdir : jsStringOrDefault req.directory "general" ∈ allowedDirectories
  case neg =>
    rw [POSTv2_bad_directory bn now gput req f hfile hty hsz hdir] at h200
    simp at h200
  by_cases hbn : jsTruthy bn = true
  · rcases hloop : attemptLoop gput "Upload failed - no URL returned" 3 1 with ⟨tr, res⟩
    cases res with
    | ok a =>
      rw [POSTv2_valid_ok bn now gput req f tr hfile hty hsz hdir hbn hloop]
    | error e =>
      rw [POSTv2_valid_err bn now gput req f e tr hfile hty hsz hdir hbn hloop] at h200
      simp at h200
  · rw [Bool.not_eq_true] at hbn
    rw [POSTv2_no_bucket bn now gput req f hfile hty hsz hdir hbn] at h200
    simp at h200

end Upload

/-! ### Claims -/

namespace Upload

/-- C8: Filename sanitization is idempotent: for every string `s`,
sanitizing `sanitizeFileName s` yields `sanitizeFileName s` again, where the
sanitizer replaces whitespace runs with hyphens, strips characters outside
`[a-zA-Z0-9.-]` and lowercases. -/
theorem C8_sanitize_idempotent (s : String) :
    sanitizeFileName (sanitizeFileName s) = sanitizeFileName s := by
  show (⟨sanitizeChars (sanitizeChars s.data)⟩ : String) = ⟨sanitizeChars s.data⟩
  rw [sanitizeChars_idem]

/-- C2: On a valid request whose backend write fails on the first two
attempts and succeeds on the third, exactly 3 write attempts occur with a
fixed 1000 ms pause between consecutive attempts and the response is a 200
carrying the resulting URL (first conjunct: GCS backend; second conjunct:
Vercel Blob backend); moreover success on the first or second attempt
performs no further attempts (last two conjuncts). -/
theorem C2_retry_three_attempts :
    (∀ (env : Env) (now : Nat) (gput : Nat → Except String Unit)
        (bput : Nat → Except String String) (req : UploadRequest) (f : FileData)
        (b e1 e2 : String),
      req.file = some f → f.type ∈ allowedTypes → f.size ≤ maxSize →
      jsStringOrDefault req.directory "general" ∈ allowedDirectories →
      env.GCS_BUCKET_NAME = some b → b ≠ "" → env.storageOk = true →
      gput 1 = Except.error e1 → gput 2 = Except.error e2 →
      gput 3 = Except.ok () →
      (POST env now gput bput req).2 =
          [Ev.attempt 1, Ev.sleepMs 1000, Ev.attempt 2, Ev.sleepMs 1000,
           Ev.attempt 3] ∧
        (POST env now gput bput req).1.status = 200 ∧
        (POST env now gput bput req).1.url =
          some ("https://storage.googleapis.com/" ++ b ++ "/" ++
            (jsStringOrDefault req.directory "general" ++ "/" ++ toString now ++
              "-" ++ f.name))) ∧
    (∀ (env : Env) (now : Nat) (gput : Nat → Except String Unit)
        (bput : Nat → Except String String) (req : UploadRequest) (f : FileData)
        (e1 e2 u : String),
      req.file = some f → f.type ∈ allowedTypes → f.size ≤ maxSize →
      jsStringOrDefault req.directory "general" ∈ allowedDirectories →
      (jsTruthy env.GCS_BUCKET_NAME && env.storageOk) = false →
      jsTruthy env.BLOB_READ_WRITE_TOKEN = true →
      bput 1 = Except.error e1 → bput 2 = Except.error e2 →
      bput 3 = Except.ok u →
      (POST env now gput bput req).2 =
          [Ev.attempt 1, Ev.sleepMs 1000, Ev.attempt 2, Ev.sleepMs 1000,
           Ev.attempt 3] ∧
        (POST env now gput bput req).1.status = 200 ∧
        (POST env now gput bput req).1.url = some u) ∧
    (∀ (α : Type) (put : Nat → Except String α) (msg : String) (a : α),
      put 1 = Except.ok a →
      attemptLoop put msg 3 1 = ([Ev.attempt 1], Except.ok a)) ∧
    (∀ (α : Type) (put : Nat → Except String α) (msg e1 : String) (a : α),
      put 1 = Except.error e1 → put 2 = Except.ok a →
      attemptLoop put msg 3 1 =
        ([Ev.attempt 1, Ev.sleepMs 1000, Ev.attempt 2], Except.ok a)) := by
  refine ⟨?_, ?_, ?_, ?_⟩
  · intro env now gput bput req f b e1 e2 hfile hty hsz hdir hb hbne hsok h1 h2 h3
    rw [POST_valid_gcs_ok env now gput bput req f b _ hfile hty hsz hdir hb hbne
      hsok (attemptLoop_err12_ok3 gput _ e1 e2 () h1 h2 h3)]
    exact ⟨rfl, rfl, rfl⟩
  · intro env now gput bput req f e1 e2 u hfile hty hsz hdir hsel htok h1 h2 h3
    rw [POST_valid_blob_ok env now gput bput req f u _ hfile hty hsz hdir hsel
      htok (attemptLoop_err12_ok3 bput _ e1 e2 u h1 h2 h3)]
    exact ⟨rfl, rfl, rfl⟩
  · exact fun α put msg a h1 => attemptLoop_ok1 put msg a h1
  · exact fun α put msg e1 a h1 h2 => attemptLoop_err1_ok2 put msg e1 a h1 h2

/-- C2 witness: a concrete valid request against a GCS backend failing
twice then succeeding, evaluated through the theorem. -/
theorem C2_retry_three_attempts_witness :
    (POST ⟨some "b", none, true⟩ 7
        (fun k => if k = 1 then Except.error "e1"
          else if k = 2 then Except.error "e2" else Except.ok ())
        (fun _ => Except.ok "unused")
        ⟨some ⟨"a.png", "image/png", 10⟩, none⟩).2 =
      [Ev.attempt 1, Ev.sleepMs 1000, Ev.attempt 2, Ev.sleepMs 1000,
       Ev.attempt 3] ∧
    (POST ⟨some "b", none, true⟩ 7
        (fun k => if k = 1 then Except.error "e1"
          else if k = 2 then Except.error "e2" else Except.ok ())
        (fun _ => Except.ok "unused")
        ⟨some ⟨"a.png", "image/png", 10⟩, none⟩).1.status = 200 ∧
    (POST ⟨some "b", none, true⟩ 7
        (fun k => if k = 1 then Except.error "e1"
          else if k = 2 then Except.error "e2" else Except.ok ())
        (fun _ => Except.ok "unused")
        ⟨some ⟨"a.png", "image/png", 10⟩, none⟩).1.url =
      some "https://storage.googleapis.com/b/general/7-a.png" := by
  have h := C2_retry_three_attempts.1 ⟨some "b", none, true⟩ 7
    (fun k => if k = 1 then Except.error "e1"
      else if k = 2 then Except.error "e2" else Except.ok ())
    (fun _ => Except.ok "unused")
    ⟨some ⟨"a.png", "image/png", 10⟩, none⟩ ⟨"a.png", "image/png", 10⟩
    "b" "e1" "e2" rfl (by decide) (by decide) (by decide) rfl
    (by decide) rfl rfl rfl rfl
  exact ⟨h.1, h.2.1, h.2.2.trans (by decide)⟩

end Upload

namespace Upload

/-- C3: On a valid request whose backend write fails on all 3 attempts, no
further attempt is made (the trace holds exactly attempts 1..3) and the
response is a 500 whose `details` field carries the message of the third
error (first conjunct: GCS backend; second conjunct: Vercel Blob
backend). -/
theorem C3_exhausted_retries_500 :
    (∀ (env : Env) (now : Nat) (gput : Nat → Except String Unit)
        (bput : Nat → Except String String) (req : UploadRequest) (f : FileData)
        (b e1 e2 e3 : String),
      req.file = some f → f.type ∈ allowedTypes → f.size ≤ maxSize →
      jsStringOrDefault req.directory "general" ∈ allowedDirectories →
      env.GCS_BUCKET_NAME = some b → b ≠ "" → env.storageOk = true →
      gput 1 = Except.error e1 → gput 2 = Except.error e2 →
      gput 3 = Except.error e3 →
      POST env now gput bput req =
        ({ status := 500, error := some "Failed to upload file",
           details := some e3 },
         [Ev.attempt 1, Ev.sleepMs 1000, Ev.attempt 2, Ev.sleepMs 1000,
          Ev.attempt 3])) ∧
    (∀ (env : Env) (now : Nat) (gput : Nat → Except String Unit)
        (bput : Nat → Except String String) (req : UploadRequest) (f : FileData)
        (e1 e2 e3 : String),
      req.file = some f → f.type ∈ allowedTypes → f.size ≤ maxSize →
      jsStringOrDefault req.directory "general" ∈ allowedDirectories →
      (jsTruthy env.GCS_BUCKET_NAME && env.storageOk) = false →
      jsTruthy env.BLOB_READ_WRITE_TOKEN = true →
      bput 1 = Except.error e1 → bput 2 = Except.error e2 →
      bput 3 = Except.error e3 →
      POST env now gput bput req =
        ({ status := 500, error := some "Failed to upload file",
           details := some e3 },
         [Ev.attempt 1, Ev.sleepMs 1000, Ev.attempt 2, Ev.sleepMs 1000,
          Ev.attempt 3])) := by
  constructor
  · intro env now gput bput req f b e1 e2 e3 hfile hty hsz hdir hb hbne hsok h1 h2 h3
    exact POST_valid_gcs_err env now gput bput req f b e3 _ hfile hty hsz hdir
      hb hbne hsok (attemptLoop_err123 gput _ e1 e2 e3 h1 h2 h3)
  · intro env now gput bput req f e1 e2 e3 hfile hty hsz hdir hsel htok h1 h2 h3
    exact POST_valid_blob_err env now gput bput req f e3 _ hfile hty hsz hdir
      hsel htok (attemptLoop_err123 bput _ e1 e2 e3 h1 h2 h3)

/-- C3 witness: a concrete valid request against a GCS backend failing on
all three attempts, evaluated through the theorem. -/
theorem C3_exhausted_retries_500_witness :
    POST ⟨some "b", none, true⟩ 7
        (fun k => if k = 1 then Except.error "e1"
          else if k = 2 then Except.error "e2" else Except.error "e3")
        (fun _ => Except.ok "unused")
        ⟨some ⟨"a.png", "image/png", 10⟩, none⟩ =
      ({ status := 500, error := some "Failed to upload file",
         details := some "e3" },
       [Ev.attempt 1, Ev.sleepMs 1000, Ev.attempt 2, Ev.sleepMs 1000,
        Ev.attempt 3]) :=
  C3_exhausted_retries_500.1 ⟨some "b", none, true⟩ 7
    (fun k => if k = 1 then Except.error "e1"
      else if k = 2 then Except.error "e2" else Except.error "e3")
    (fun _ => Except.ok "unused")
    ⟨some ⟨"a.png", "image/png", 10⟩, none⟩ ⟨"a.png", "image/png", 10⟩
    "b" "e1" "e2" "e3" rfl (by decide) (by decide) (by decide) rfl
    (by decide) rfl rfl rfl rfl

/-- C4: A request failing a validation check — declared MIME type outside
the allow-list, or byte size strictly above `maxSize` = 15 MiB, or
(effective) directory outside the allow-list — receives the corresponding
400 validation error, and its trace is empty: no storage write and no retry
is attempted. -/
theorem C4_validation_rejections (env : Env) (now : Nat)
    (gput : Nat → Except String Unit) (bput : Nat → Except String String)
    (req : UploadRequest) (f : FileData) :
    (req.file = some f → f.type ∉ allowedTypes →
      POST env now gput bput req =
        ({ status := 400
           error := some "Invalid file type. Only JPEG, PNG, WebP, and AVIF images are allowed." },
         [])) ∧
    (req.file = some f → f.type ∈ allowedTypes → f.size > maxSize →
      POST env now gput bput req =
        ({ status := 400, error := some "File too large. Maximum size is 15MB." },
         [])) ∧
    (req.file = some f → f.type ∈ allowedTypes → f.size ≤ maxSize →
      jsStringOrDefault req.directory "general" ∉ allowedDirectories →
      POST env now gput bput req =
        ({ status := 400
           error := some "Invalid directory. Allowed directories: courses, batches, general, products, products/banner, category-icons, logos" },
         [])) :=
  ⟨fun hfile hty => POST_bad_type env now gput bput req f hfile hty,
   fun hfile hty hsz => POST_too_large env now gput bput req f hfile hty hsz,
   fun hfile hty hsz hdir => POST_bad_directory env now gput bput req f hfile hty hsz hdir⟩

/-- C4 witness: a PDF upload is rejected with the MIME-type error and an
empty trace. -/
theorem C4_validation_rejections_witness :
    POST ⟨some "b", none, true⟩ 7 (fun _ => Except.ok ())
        (fun _ => Except.ok "u")
        ⟨some ⟨"a.pdf", "application/pdf", 10⟩, none⟩ =
      ({ status := 400
         error := some "Invalid file type. Only JPEG, PNG, WebP, and AVIF images are allowed." },
       []) :=
  (C4_validation_rejections ⟨some "b", none, true⟩ 7 (fun _ => Except.ok ())
    (fun _ => Except.ok "u") ⟨some ⟨"a.pdf", "application/pdf", 10⟩, none⟩
    ⟨"a.pdf", "application/pdf", 10⟩).1 rfl (by decide)

/-- C5: Validation runs in the fixed order missing-file, MIME type, byte
size, directory: each conjunct rejects on the first violated check with no
hypothesis on the later ones, and every rejection leaves an empty trace
(no side effect). -/
theorem C5_validation_order (env : Env) (now : Nat)
    (gput : Nat → Except String Unit) (bput : Nat → Except String String)
    (req : UploadRequest) (f : FileData) :
    (req.file = none →
      POST env now gput bput req =
        ({ status := 400, error := some "No file provided" }, [])) ∧
    (req.file = some f → f.type ∉ allowedTypes →
      POST env now gput bput req =
        ({ status := 400
           error := some "Invalid file type. Only JPEG, PNG, WebP, and AVIF images are allowed." },
         [])) ∧
    (req.file = some f → f.type ∈ allowedTypes → f.size > maxSize →
      POST env now gput bput req =
        ({ status := 400, error := some "File too large. Maximum size is 15MB." },
         [])) ∧
    (req.file = some f → f.type ∈ allowedTypes → f.size ≤ maxSize →
      jsStringOrDefault req.directory "general" ∉ allowedDirectories →
      POST env now gput bput req =
        ({ status := 400
           error := some "Invalid directory. Allowed directories: courses, batches, general, products, products/banner, category-icons, logos" },
         [])) :=
  ⟨fun hfile => POST_no_file env now gput bput req hfile,
   fun hfile hty => POST_bad_type env now gput bput req f hfile hty,
   fun hfile hty hsz => POST_too_large env now gput bput req f hfile hty hsz,
   fun hfile hty hsz hdir => POST_bad_directory env now gput bput req f hfile hty hsz hdir⟩

/-- C5 witness: a request violating the MIME-type, size and directory
constraints at once is rejected by the MIME-type check, the first violated
one in the order. -/
theorem C5_validation_order_witness :
    POST ⟨some "b", none, true⟩ 7 (fun _ => Except.ok ())
        (fun _ => Except.ok "u")
        ⟨some ⟨"a.pdf", "application/pdf", 99999999⟩, some "secret"⟩ =
      ({ status := 400
         error := some "Invalid file type. Only JPEG, PNG, WebP, and AVIF images are allowed." },
       []) :=
  (C5_validation_order ⟨some "b", none, true⟩ 7 (fun _ => Except.ok ())
    (fun _ => Except.ok "u")
    ⟨some ⟨"a.pdf", "application/pdf", 99999999⟩, some "secret"⟩
    ⟨"a.pdf", "application/pdf", 99999999⟩).2.1 rfl (by decide)

end Upload

namespace Upload

/-- C6: Backend selection: when `GCS_BUCKET_NAME` is a non-empty string and
the storage client was constructed, a successful write goes to GCS and the
200 response carries `https://storage.googleapis.com/{bucket}/{key}` (first
conjunct); otherwise the write goes to Vercel Blob and the 200 response
carries the blob-store-issued URL (second conjunct). -/
theorem C6_backend_selection :
    (∀ (env : Env) (now : Nat) (gput : Nat → Except String Unit)
        (bput : Nat → Except String String) (req : UploadRequest) (f : FileData)
        (b : String) (tr : List Ev),
      req.file = some f → f.type ∈ allowedTypes → f.size ≤ maxSize →
      jsStringOrDefault req.directory "general" ∈ allowedDirectories →
      env.GCS_BUCKET_NAME = some b → b ≠ "" → env.storageOk = true →
      attemptLoop gput "Upload failed - no URL returned" 3 1 = (tr, Except.ok ()) →
      POST env now gput bput req =
        ({ status := 200
           url := some ("https://storage.googleapis.com/" ++ b ++ "/" ++
             (jsStringOrDefault req.directory "general" ++ "/" ++ toString now ++
               "-" ++ f.name))
           fileName := some (jsStringOrDefault req.directory "general" ++ "/" ++
             toString now ++ "-" ++ f.name)
           storage := some "gcs" }, tr)) ∧
    (∀ (env : Env) (now : Nat) (gput : Nat → Except String Unit)
        (bput : Nat → Except String String) (req : UploadRequest) (f : FileData)
        (u : String) (tr : List Ev),
      req.file = some f → f.type ∈ allowedTypes → f.size ≤ maxSize →
      jsStringOrDefault req.directory "general" ∈ allowedDirectories →
      (jsTruthy env.GCS_BUCKET_NAME && env.storageOk) = false →
      jsTruthy env.BLOB_READ_WRITE_TOKEN = true →
      attemptLoop bput "Upload failed - no blob returned" 3 1 = (tr, Except.ok u) →
      POST env now gput bput req =
        ({ status := 200
           url := some u
           fileName := some (jsStringOrDefault req.directory "general" ++ "/" ++
             toString now ++ "-" ++ f.name)
           storage := some "vercel-blob" }, tr)) :=
  ⟨fun env now gput bput req f b tr hfile hty hsz hdir hb hbne hsok hloop =>
     POST_valid_gcs_ok env now gput bput req f b tr hfile hty hsz hdir hb hbne hsok hloop,
   fun env now gput bput req f u tr hfile hty hsz hdir hsel htok hloop =>
     POST_valid_blob_ok env now gput bput req f u tr hfile hty hsz hdir hsel htok hloop⟩

/-- C6 witness: the same valid request evaluated once with a configured
bucket (GCS URL) and once without one but with a blob token (store-issued
URL), through both conjuncts of the theorem. -/
theorem C6_backend_selection_witness :
    POST ⟨some "b", none, true⟩ 7 (fun _ => Except.ok ())
        (fun _ => Except.ok "https://blob.example/x")
        ⟨some ⟨"a.png", "image/png", 10⟩, none⟩ =
      ({ status := 200
         url := some "https://storage.googleapis.com/b/general/7-a.png"
         fileName := some "general/7-a.png"
         storage := some "gcs" }, [Ev.attempt 1]) ∧
    POST ⟨none, some "tok", true⟩ 7 (fun _ => Except.ok ())
        (fun _ => Except.ok "https://blob.example/x")
        ⟨some ⟨"a.png", "image/png", 10⟩, none⟩ =
      ({ status := 200
         url := some "https://blob.example/x"
         fileName := some "general/7-a.png"
         storage := some "vercel-blob" }, [Ev.attempt 1]) := by
  constructor
  · have h := C6_backend_selection.1 ⟨some "b", none, true⟩ 7
      (fun _ => Except.ok ()) (fun _ => Except.ok "https://blob.example/x")
      ⟨some ⟨"a.png", "image/png", 10⟩, none⟩ ⟨"a.png", "image/png", 10⟩
      "b" [Ev.attempt 1] rfl (by decide) (by decide) (by decide) rfl
      (by decide) rfl rfl
    exact h.trans (by decide)
  · have h := C6_backend_selection.2 ⟨none, some "tok", true⟩ 7
      (fun _ => Except.ok ()) (fun _ => Except.ok "https://blob.example/x")
      ⟨some ⟨"a.png", "image/png", 10⟩, none⟩ ⟨"a.png", "image/png", 10⟩
      "https://blob.example/x" [Ev.attempt 1] rfl (by decide) (by decide)
      (by decide) rfl rfl rfl
    exact h.trans (by decide)

/-- C7: The directory defaults to `"general"` when the field is absent
(first conjunct); a request whose effective directory is outside the fixed
allow-list is rejected with the InvalidDirectory error and no side effect
(second conjunct); and a request whose effective directory is in the
allow-list is never answered with the InvalidDirectory error (third
conjunct). -/
theorem C7_directory_allowlist :
    jsStringOrDefault none "general" = "general" ∧
    (∀ (env : Env) (now : Nat) (gput : Nat → Except String Unit)
        (bput : Nat → Except String String) (req : UploadRequest) (f : FileData),
      req.file = some f → f.type ∈ allowedTypes → f.size ≤ maxSize →
      jsStringOrDefault req.directory "general" ∉ allowedDirectories →
      POST env now gput bput req =
        ({ status := 400
           error := some "Invalid directory. Allowed directories: courses, batches, general, products, products/banner, category-icons, logos" },
         [])) ∧
    (∀ (env : Env) (now : Nat) (gput : Nat → Except String Unit)
        (bput : Nat → Except String String) (req : UploadRequest) (f : FileData),
      req.file = some f → f.type ∈ allowedTypes → f.size ≤ maxSize →
      jsStringOrDefault req.directory "general" ∈ allowedDirectories →
      (POST env now gput bput req).1.error ≠
        some "Invalid directory. Allowed directories: courses, batches, general, products, products/banner, category-icons, logos") := by
  refine ⟨rfl, ?_, ?_⟩
  · intro env now gput bput req f hfile hty hsz hdir
    exact POST_bad_directory env now gput bput req f hfile hty hsz hdir
  · intro env now gput bput req f hfile hty hsz hdir
    rcases POST_error_shape env now gput bput req f hfile hty hsz hdir with h | h | h <;>
      rw [h] <;> decide

/-- C7 witness: a request with directory `"secret"` is rejected as
InvalidDirectory, and one with directory `"logos"` is not answered with
that error. -/
theorem C7_directory_allowlist_witness :
    POST ⟨some "b", none, true⟩ 7 (fun _ => Except.ok ())
        (fun _ => Except.ok "u")
        ⟨some ⟨"a.png", "image/png", 10⟩, some "secret"⟩ =
      ({ status := 400
         error := some "Invalid directory. Allowed directories: courses, batches, general, products, products/banner, category-icons, logos" },
       []) ∧
    (POST ⟨some "b", none, true⟩ 7 (fun _ => Except.ok ())
        (fun _ => Except.ok "u")
        ⟨some ⟨"a.png", "image/png", 10⟩, some "logos"⟩).1.error ≠
      some "Invalid directory. Allowed directories: courses, batches, general, products, products/banner, category-icons, logos" :=
  ⟨C7_directory_allowlist.2.1 ⟨some "b", none, true⟩ 7 (fun _ => Except.ok ())
    (fun _ => Except.ok "u") ⟨some ⟨"a.png", "image/png", 10⟩, some "secret"⟩
    ⟨"a.png", "image/png", 10⟩ rfl (by decide) (by decide) (by decide),
   C7_directory_allowlist.2.2 ⟨some "b", none, true⟩ 7 (fun _ => Except.ok ())
    (fun _ => Except.ok "u") ⟨some ⟨"a.png", "image/png", 10⟩, some "logos"⟩
    ⟨"a.png", "image/png", 10⟩ rfl (by decide) (by decide) (by decide)⟩

end Upload

namespace Upload

/-- C9: A request whose directory field is present but empty is not
rejected as InvalidDirectory: `"" || 'general'` evaluates to `"general"`
(first conjunct), the handler behaves identically to a request with the
field absent (second conjunct), and an otherwise-valid upload proceeds
under the `general/` prefix (third conjunct). -/
theorem C9_empty_directory_defaults :
    jsStringOrDefault (some "") "general" = "general" ∧
    (∀ (env : Env) (now : Nat) (gput : Nat → Except String Unit)
        (bput : Nat → Except String String) (fod : Option FileData),
      POST env now gput bput ⟨fod, some ""⟩ = POST env now gput bput ⟨fod, none⟩) ∧
    (∀ (env : Env) (now : Nat) (gput : Nat → Except String Unit)
        (bput : Nat → Except String String) (f : FileData) (b : String)
        (tr : List Ev),
      f.type ∈ allowedTypes → f.size ≤ maxSize →
      env.GCS_BUCKET_NAME = some b → b ≠ "" → env.storageOk = true →
      attemptLoop gput "Upload failed - no URL returned" 3 1 = (tr, Except.ok ()) →
      POST env now gput bput ⟨some f, some ""⟩ =
        ({ status := 200
           url := some ("https://storage.googleapis.com/" ++ b ++ "/" ++
             ("general" ++ "/" ++ toString now ++ "-" ++ f.name))
           fileName := some ("general" ++ "/" ++ toString now ++ "-" ++ f.name)
           storage := some "gcs" }, tr)) := by
  refine ⟨rfl, fun env now gput bput fod => rfl, ?_⟩
  intro env now gput bput f b tr hty hsz hb hbne hsok hloop
  exact POST_valid_gcs_ok env now gput bput ⟨some f, some ""⟩ f b tr rfl hty
    hsz (show jsStringOrDefault (some "") "general" ∈ allowedDirectories by decide)
    hb hbne hsok hloop

/-- C9 witness: a concrete upload with an empty directory field succeeds
with the key under `general/`. -/
theorem C9_empty_directory_defaults_witness :
    POST ⟨some "b", none, true⟩ 7 (fun _ => Except.ok ())
        (fun _ => Except.ok "u") ⟨some ⟨"a.png", "image/png", 10⟩, some ""⟩ =
      ({ status := 200
         url := some "https://storage.googleapis.com/b/general/7-a.png"
         fileName := some "general/7-a.png"
         storage := some "gcs" }, [Ev.attempt 1]) := by
  have h := C9_empty_directory_defaults.2.2 ⟨some "b", none, true⟩ 7
    (fun _ => Except.ok ()) (fun _ => Except.ok "u")
    ⟨"a.png", "image/png", 10⟩ "b" [Ev.attempt 1] (by decide) (by decide)
    rfl (by decide) rfl rfl
  exact h.trans (by decide)

/-- C10: The size limit is strict at the boundary: `maxSize` is exactly
15728640 bytes (first conjunct), a file of exactly that size is never
answered with the TooLarge error (second conjunct), and any strictly larger
file is rejected with TooLarge, a 400 and no side effect (third
conjunct). -/
theorem C10_size_boundary :
    maxSize = 15728640 ∧
    (∀ (env : Env) (now : Nat) (gput : Nat → Except String Unit)
        (bput : Nat → Except String String) (req : UploadRequest) (f : FileData),
      req.file = some f → f.type ∈ allowedTypes → f.size = 15728640 →
      (POST env now gput bput req).1.error ≠
        some "File too large. Maximum size is 15MB.") ∧
    (∀ (env : Env) (now : Nat) (gput : Nat → Except String Unit)
        (bput : Nat → Except String String) (req : UploadRequest) (f : FileData),
      req.file = some f → f.type ∈ allowedTypes → f.size > 15728640 →
      POST env now gput bput req =
        ({ status := 400, error := some "File too large. Maximum size is 15MB." },
         [])) := by
  refine ⟨rfl, ?_, ?_⟩
  · intro env now gput bput req f hfile hty hsz
    have hsz' : f.size ≤ maxSize := by rw [maxSize]; omega
    by_cases hdir : jsStringOrDefault req.directory "general" ∈ allowedDirectories
    · rcases POST_error_shape env now gput bput req f hfile hty hsz' hdir with
        h | h | h <;> rw [h] <;> decide
    · rw [POST_bad_directory env now gput bput req f hfile hty hsz' hdir]
      decide
  · intro env now gput bput req f hfile hty hsz
    exact POST_too_large env now gput bput req f hfile hty (by rw [maxSize]; omega)

/-- C10 witness: a file of exactly 15728640 bytes passes the size check (it
is accepted), and one of 15728641 bytes is rejected as TooLarge. -/
theorem C10_size_boundary_witness :
    (POST ⟨some "b", none, true⟩ 7 (fun _ => Except.ok ())
        (fun _ => Except.ok "u")
        ⟨some ⟨"a.png", "image/png", 15728640⟩, none⟩).1.error ≠
      some "File too large. Maximum size is 15MB." ∧
    POST ⟨some "b", none, true⟩ 7 (fun _ => Except.ok ())
        (fun _ => Except.ok "u")
        ⟨some ⟨"a.png", "image/png", 15728641⟩, none⟩ =
      ({ status := 400, error := some "File too large. Maximum size is 15MB." },
       []) :=
  ⟨C10_size_boundary.2.1 ⟨some "b", none, true⟩ 7 (fun _ => Except.ok ())
    (fun _ => Except.ok "u") ⟨some ⟨"a.png", "image/png", 15728640⟩, none⟩
    ⟨"a.png", "image/png", 15728640⟩ rfl (by decide) rfl,
   C10_size_boundary.2.2 ⟨some "b", none, true⟩ 7 (fun _ => Except.ok ())
    (fun _ => Except.ok "u") ⟨some ⟨"a.png", "image/png", 15728641⟩, none⟩
    ⟨"a.png", "image/png", 15728641⟩ rfl (by decide) (by decide)⟩

end Upload

namespace Upload

/-- C1 counterexample: the dual-backend handler accepts an upload named
`"My Photo.PNG"` (status 200) but stores it under the key
`products/1700000000000-My Photo.PNG`, the raw original filename, not under
the sanitized name `my-photo.png` the claim requires. -/
theorem C1_object_key_counterexample :
    (POST ⟨some "bucket", none, true⟩ 1700000000000 (fun _ => Except.ok ())
        (fun _ => Except.ok "unused")
        ⟨some ⟨"My Photo.PNG", "image/png", 100⟩, some "products"⟩).1.status = 200 ∧
    (POST ⟨some "bucket", none, true⟩ 1700000000000 (fun _ => Except.ok ())
        (fun _ => Except.ok "unused")
        ⟨some ⟨"My Photo.PNG", "image/png", 100⟩, some "products"⟩).1.fileName =
      some "products/1700000000000-My Photo.PNG" ∧
    sanitizeFileName "My Photo.PNG" = "my-photo.png" ∧
    (POST ⟨some "bucket", none, true⟩ 1700000000000 (fun _ => Except.ok ())
        (fun _ => Except.ok "unused")
        ⟨some ⟨"My Photo.PNG", "image/png", 100⟩, some "products"⟩).1.fileName ≠
      some ("products/" ++ toString (1700000000000 : Nat) ++ "-" ++
        sanitizeFileName "My Photo.PNG") := by
  refine ⟨rfl, by decide, by decide, by decide⟩

/-- C1 (amended): For every accepted upload request the dual-backend
handler stores the object key
`{directory}/{unix-timestamp-ms}-{original-filename}` with the filename
taken verbatim (no sanitization); only the GCS-only route variant sanitizes,
storing `{directory}/{unix-timestamp-ms}-{sanitized-original-filename}`. -/
theorem C1_object_key_amended (env : Env) (bn : Option String) (now : Nat)
    (gput : Nat → Except String Unit) (bput : Nat → Except String String)
    (req : UploadRequest) (f : FileData) (hfile : req.file = some f) :
    ((POST env now gput bput req).1.status = 200 →
      (POST env now gput bput req).1.fileName =
        some (jsStringOrDefault req.directory "general" ++ "/" ++ toString now ++
          "-" ++ f.name)) ∧
    ((POSTv2 bn now gput req).1.status = 200 →
      (POSTv2 bn now gput req).1.fileName =
        some (jsStringOrDefault req.directory "general" ++ "/" ++ toString now ++
          "-" ++ sanitizeFileName f.name)) :=
  ⟨fun h200 => POST_fileName_of_200 env now gput bput req f hfile h200,
   fun h200 => POSTv2_fileName_of_200 bn now gput req f hfile h200⟩

/-- C1 (amended) witness: the same accepted request evaluated through both
conjuncts: the dual-backend key keeps `My Photo.PNG` verbatim, the GCS-only
variant stores `my-photo.png`. -/
theorem C1_object_key_amended_witness :
    (POST ⟨some "bucket", none, true⟩ 7 (fun _ => Except.ok ())
        (fun _ => Except.ok "unused")
        ⟨some ⟨"My Photo.PNG", "image/png", 100⟩, some "products"⟩).1.fileName =
      some "products/7-My Photo.PNG" ∧
    (POSTv2 (some "bucket") 7 (fun _ => Except.ok ())
        ⟨some ⟨"My Photo.PNG", "image/png", 100⟩, some "products"⟩).1.fileName =
      some "products/7-my-photo.png" := by
  have h := C1_object_key_amended ⟨some "bucket", none, true⟩ (some "bucket") 7
    (fun _ => Except.ok ()) (fun _ => Except.ok "unused")
    ⟨some ⟨"My Photo.PNG", "image/png", 100⟩, some "products"⟩
    ⟨"My Photo.PNG", "image/png", 100⟩ rfl
  exact ⟨(h.1 rfl).trans (by decide), (h.2 rfl).trans (by decide)⟩

end Upload
